import Mathlib

/-!
Verification of the fuel block header commitment core
(crates/types/src/blockchain/header.rs): the data model for partial and
complete block headers, the application and consensus header digests,
header generation from execution outputs, and the identity cache.

Bytes are modelled as natural numbers and byte strings as lists; the
external collaborators (the cryptographic digest primitive, the binary
merkle tree and the fixed-width integer encodings) live outside the
translated source and are modelled from the spec, with doc comments
marking each such definition.
-/

/-- Modelled from the spec: the external cryptographic digest function
(the fuel_crypto hasher's underlying primitive is not part of the
translated source). It stands for an arbitrary deterministic function
from an accumulated byte string to a 32-byte digest; no claim depends on
its concrete output values, only on exactly which bytes are fed to it. -/
def digestBytes (input : List Nat) : List Nat :=
  (List.range 32).map (fun i =>
    (input.foldl (fun acc b => (acc * 257 + b + 1) % 65521) (i + 1)) % 256)

/-- Modelled from the spec: the fuel_crypto hasher interface. Its state is
the byte string accumulated so far; `input` appends bytes in order and
`digest` applies the digest function to the accumulated bytes. -/
structure Hasher where
  state : List Nat

def Hasher.default : Hasher := ⟨[]⟩

def Hasher.input (h : Hasher) (bs : List Nat) : Hasher := ⟨h.state ++ bs⟩

def Hasher.digest (h : Hasher) : List Nat := digestBytes h.state

/-- Modelled from the spec: the fixed-width (8-byte) big-endian encoding
of a 64-bit unsigned integer. The spec fixes 8-byte big-endian widths for
the counts and the time, and fixed-width big-endian bytes for da_height
and height (their newtype to_bytes methods are not part of the translated
source). Values are encoded modulo 2^64, as the machine type would. -/
def u64ToBeBytes (n : Nat) : List Nat :=
  (List.range 8).map (fun i => n / 256 ^ (7 - i) % 256)

/-- Modelled from the spec: the external binary merkle tree collaborator
(fuel_merkle is not part of the translated source). Its state is the
ordered list of leaves pushed so far; `root` is a deterministic,
order-sensitive function of that list, with a canonical defined value for
the empty tree. -/
structure MerkleTree where
  leaves : List (List Nat)

def MerkleTree.new : MerkleTree := ⟨[]⟩

def MerkleTree.push (t : MerkleTree) (leaf : List Nat) : MerkleTree :=
  ⟨t.leaves ++ [leaf]⟩

def MerkleTree.root (t : MerkleTree) : List Nat :=
  digestBytes (t.leaves.foldl (fun acc l => acc ++ u64ToBeBytes l.length ++ l) [])

/-- Marker for header fields that have not been generated yet
(the source's `Empty` unit struct; renamed because Lean's root namespace
already has an `Empty`). -/
structure EmptyGen where

/-- Concrete generated application header fields (counts are u64 values,
roots are 32-byte digests). -/
structure GeneratedApplicationFields where
  transactions_count : Nat
  output_messages_count : Nat
  transactions_root : List Nat
  output_messages_root : List Nat

/-- The fuel block application header, parameterized by its generation
state (da_height is a u64 data-availability chain height). -/
structure ApplicationHeader (Generated : Type) where
  da_height : Nat
  generated : Generated

/-- Concrete generated consensus header fields. -/
structure GeneratedConsensusFields where
  application_hash : List Nat

/-- The fuel block consensus header, parameterized by its generation state
(height is the u64 chain height, time the u64 tai64 seconds value). -/
structure ConsensusHeader (Generated : Type) where
  prev_root : List Nat
  height : Nat
  time : Nat
  generated : Generated

/-- Header metadata: the cached hash of the header. -/
structure BlockHeaderMetadata where
  id : List Nat

/-- A complete fuel block header with all fields generated. -/
structure BlockHeader where
  application : ApplicationHeader GeneratedApplicationFields
  consensus : ConsensusHeader GeneratedConsensusFields
  metadata : Option BlockHeaderMetadata

/-- A fuel block header before execution, with no generated fields. -/
structure PartialBlockHeader where
  application : ApplicationHeader EmptyGen
  consensus : ConsensusHeader EmptyGen
  metadata : Option BlockHeaderMetadata

/-- The consensus type tag (a single supported variant). -/
inductive ConsensusType where
  | PoA

/-- Hash of the application header: the digest of da_height's fixed-width
bytes, the two counts as 8-byte big-endian, and the two 32-byte roots,
accumulated in exactly that order. -/
def ApplicationHeader.hash (s : ApplicationHeader GeneratedApplicationFields) :
    List Nat :=
  (((((Hasher.default.input (u64ToBeBytes s.da_height)).input
      (u64ToBeBytes s.generated.transactions_count)).input
      (u64ToBeBytes s.generated.output_messages_count)).input
      s.generated.transactions_root).input
      s.generated.output_messages_root).digest

/-- Hash of the consensus header: the digest of prev_root, height's
fixed-width big-endian bytes, time's 8-byte big-endian seconds value and
the 32-byte application hash, accumulated in exactly that order. -/
def ConsensusHeader.hash (s : ConsensusHeader GeneratedConsensusFields) :
    List Nat :=
  ((((Hasher.default.input s.prev_root).input
      (u64ToBeBytes s.height)).input
      (u64ToBeBytes s.time)).input
      s.generated.application_hash).digest

/-- Hash of the complete header: the consensus header hash (which in turn
commits to the application header's hash). -/
def BlockHeader.hash (s : BlockHeader) : List Nat := s.consensus.hash

/-- Re-generate the header metadata: unconditionally overwrite the cache
with a fresh hash. -/
def BlockHeader.recalculate_metadata (s : BlockHeader) : BlockHeader :=
  { s with metadata := some ⟨s.hash⟩ }

/-- Cached header hash: the cached value when present, otherwise computed
on demand. The source borrows the header immutably, so this is a pure
read and cannot populate the cache; the embedding returns only the id. -/
def BlockHeader.id (s : BlockHeader) : List Nat :=
  match s.metadata with
  | some m => m.id
  | none => s.hash

/-- Read accessor for prev_root on the complete header. -/
def BlockHeader.prev_root (s : BlockHeader) : List Nat := s.consensus.prev_root

/-- Read accessor for height on the complete header. -/
def BlockHeader.height (s : BlockHeader) : Nat := s.consensus.height

/-- Read accessor for time on the complete header. -/
def BlockHeader.time (s : BlockHeader) : Nat := s.consensus.time

/-- Read accessor for the application hash on the complete header. -/
def BlockHeader.application_hash (s : BlockHeader) : List Nat :=
  s.consensus.generated.application_hash

/-- Read accessor for the consensus type tag. -/
def BlockHeader.consensus_type (_ : BlockHeader) : ConsensusType :=
  ConsensusType.PoA

/-- Generate all fields to create a full header after running the
transactions: push the transaction byte strings, then the message ids,
in order into fresh merkle trees, assemble the application header, hash
it, assemble the consensus header around that hash, and cache the
header hash. The list lengths are cast to u64 as in the source. -/
def PartialBlockHeader.generate (p : PartialBlockHeader)
    (transactions : List (List Nat)) (message_ids : List (List Nat)) :
    BlockHeader :=
  let transaction_tree := transactions.foldl MerkleTree.push MerkleTree.new
  let transactions_root := transaction_tree.root
  let message_tree := message_ids.foldl MerkleTree.push MerkleTree.new
  let output_messages_root := message_tree.root
  let application : ApplicationHeader GeneratedApplicationFields :=
    { da_height := p.application.da_height
      generated :=
        { transactions_count := transactions.length % 2 ^ 64
          output_messages_count := message_ids.length % 2 ^ 64
          transactions_root := transactions_root
          output_messages_root := output_messages_root } }
  let application_hash := application.hash
  let header : BlockHeader :=
    { application := application
      consensus :=
        { prev_root := p.consensus.prev_root
          height := p.consensus.height
          time := p.consensus.time
          generated := { application_hash := application_hash } }
      metadata := none }
  header.recalculate_metadata

/-- Validity of the identity cache: whenever the cache is present it
equals a fresh hash of the header's current fields. -/
def cacheValid (s : BlockHeader) : Prop :=
  match s.metadata with
  | some m => m.id = s.hash
  | none => True

/-- Operations available on a complete header: cache recomputation and
the pure reads (id, hash and the field accessors), which borrow the
header immutably and so leave it unchanged. -/
inductive HeaderOp where
  | recalc
  | readId
  | readHash
  | readPrevRoot
  | readHeight
  | readTime
  | readApplicationHash
  | readConsensusType

/-- Effect of one operation on the header state. Reads return values and
leave the header unchanged; recalculation overwrites the cache. -/
def applyOp (s : BlockHeader) : HeaderOp → BlockHeader
  | HeaderOp.recalc => s.recalculate_metadata
  | _ => s

/-- Helper: a concrete partial header used by the witnesses. -/
def examplePartial : PartialBlockHeader :=
  { application := { da_height := 7, generated := {} }
    consensus :=
      { prev_root := List.replicate 31 0 ++ [1]
        height := 42
        time := 100
        generated := {} }
    metadata := none }

/-- C1: the application header digest is the digest of da_height's
fixed-width bytes, then transactions_count as 8-byte big-endian, then
output_messages_count as 8-byte big-endian, then the 32-byte
transactions_root, then the 32-byte output_messages_root, concatenated in
exactly that order. -/
theorem application_hash_byte_layout
    (s : ApplicationHeader GeneratedApplicationFields) :
    s.hash = digestBytes
      (u64ToBeBytes s.da_height ++
       u64ToBeBytes s.generated.transactions_count ++
       u64ToBeBytes s.generated.output_messages_count ++
       s.generated.transactions_root ++
       s.generated.output_messages_root) := by
  simp [ApplicationHeader.hash, Hasher.default, Hasher.input, Hasher.digest,
    List.append_assoc]

/-- C2: the consensus header digest is the digest of prev_root, then
height as fixed-width big-endian, then time as an 8-byte big-endian
seconds value, then the 32-byte application_hash, in exactly that order;
and the complete header's hash is exactly that consensus digest. -/
theorem consensus_hash_byte_layout :
    (∀ s : ConsensusHeader GeneratedConsensusFields,
      s.hash = digestBytes
        (s.prev_root ++ u64ToBeBytes s.height ++ u64ToBeBytes s.time ++
         s.generated.application_hash)) ∧
    (∀ b : BlockHeader, b.hash = b.consensus.hash) := by
  constructor
  · intro s
    simp [ConsensusHeader.hash, Hasher.default, Hasher.input, Hasher.digest,
      List.append_assoc]
  · intro b
    rfl

/-- C3: generation sets the counts to the input list lengths and the
roots to the merkle roots obtained by pushing the elements of each list,
in the supplied order, into a fresh merkle tree. The length hypotheses
discharge the u64 cast of the source's len() calls. -/
theorem generate_counts_and_roots (p : PartialBlockHeader)
    (T M : List (List Nat))
    (hT : T.length < 2 ^ 64) (hM : M.length < 2 ^ 64) :
    (p.generate T M).application.generated.transactions_count = T.length ∧
    (p.generate T M).application.generated.output_messages_count = M.length ∧
    (p.generate T M).application.generated.transactions_root =
      (T.foldl MerkleTree.push MerkleTree.new).root ∧
    (p.generate T M).application.generated.output_messages_root =
      (M.foldl MerkleTree.push MerkleTree.new).root := by
  refine ⟨?_, ?_, rfl, rfl⟩
  · exact Nat.mod_eq_of_lt hT
  · exact Nat.mod_eq_of_lt hM

/-- Witness for C3 at a concrete partial header with two transactions and
one message id. -/
theorem generate_counts_and_roots_witness :
    ([[1, 2], [3]] : List (List Nat)).length < 2 ^ 64 ∧
    ([[4]] : List (List Nat)).length < 2 ^ 64 ∧
    (examplePartial.generate [[1, 2], [3]] [[4]]).application.generated.transactions_count = 2 ∧
    (examplePartial.generate [[1, 2], [3]] [[4]]).application.generated.output_messages_count = 1 :=
  ⟨by decide, by decide,
    (generate_counts_and_roots examplePartial [[1, 2], [3]] [[4]]
      (by decide) (by decide)).1,
    (generate_counts_and_roots examplePartial [[1, 2], [3]] [[4]]
      (by decide) (by decide)).2.1⟩

/-- C4: generation carries the pre-execution fields through unchanged:
da_height, prev_root, height and time of the result equal those of the
input partial header. -/
theorem generate_preserves_preexisting_fields (p : PartialBlockHeader)
    (T M : List (List Nat)) :
    (p.generate T M).application.da_height = p.application.da_height ∧
    (p.generate T M).consensus.prev_root = p.consensus.prev_root ∧
    (p.generate T M).consensus.height = p.consensus.height ∧
    (p.generate T M).consensus.time = p.consensus.time :=
  ⟨rfl, rfl, rfl, rfl⟩

/-- C5: generation returns a header whose identity cache is populated,
and the cached identity equals a fresh consensus digest computation over
the returned header's fields. -/
theorem generate_populates_cache (p : PartialBlockHeader)
    (T M : List (List Nat)) :
    (p.generate T M).metadata = some ⟨(p.generate T M).hash⟩ :=
  rfl

/-- Helper: a concrete complete header with an empty identity cache, used
by the id witness. -/
def exampleUncached : BlockHeader :=
  { application :=
      { da_height := 7
        generated :=
          { transactions_count := 0
            output_messages_count := 0
            transactions_root := []
            output_messages_root := [] } }
    consensus :=
      { prev_root := [], height := 1, time := 2
        generated := { application_hash := [] } }
    metadata := none }

/-- C6: the id accessor returns the cached identity when the cache is
present and otherwise the freshly computed consensus digest; it borrows
the header immutably, so in the embedding it is a pure function that
returns only the id and cannot populate the cache. -/
theorem id_reads_cache_or_computes (s : BlockHeader) :
    (∀ m, s.metadata = some m → s.id = m.id) ∧
    (s.metadata = none → s.id = s.hash) := by
  constructor
  · intro m hm
    simp [BlockHeader.id, hm]
  · intro hm
    simp [BlockHeader.id, hm]

/-- Witness for C6 at a concrete header whose cache is absent. -/
theorem id_reads_cache_or_computes_witness :
    exampleUncached.metadata = none ∧
    exampleUncached.id = exampleUncached.hash :=
  ⟨rfl, (id_reads_cache_or_computes exampleUncached).2 rfl⟩

/-- C7: cache equivalence: id with the cache absent equals id after
recalculating the metadata, and recalculation sets the cache to exactly
the fresh hash. -/
theorem cache_equivalence (s : BlockHeader) :
    ({ s with metadata := none } : BlockHeader).id =
      s.recalculate_metadata.id ∧
    s.recalculate_metadata = { s with metadata := some ⟨s.hash⟩ } :=
  ⟨rfl, rfl⟩

/-- Helper: recalculating the metadata always yields a valid cache. -/
lemma recalculate_cacheValid (s : BlockHeader) :
    cacheValid s.recalculate_metadata :=
  rfl

/-- Helper: every operation preserves cache validity. -/
lemma applyOp_preserves_cacheValid (s : BlockHeader) (op : HeaderOp)
    (h : cacheValid s) : cacheValid (applyOp s op) := by
  cases op
  case recalc => exact recalculate_cacheValid s
  all_goals exact h

/-- Helper: any sequence of operations preserves cache validity. -/
lemma foldl_applyOp_preserves_cacheValid (ops : List HeaderOp)
    (s : BlockHeader) (h : cacheValid s) :
    cacheValid (ops.foldl applyOp s) := by
  induction ops generalizing s with
  | nil => exact h
  | cons op rest ih => exact ih (applyOp s op) (applyOp_preserves_cacheValid s op h)

/-- Helper: generation yields a valid cache. -/
lemma generate_cacheValid (p : PartialBlockHeader) (T M : List (List Nat)) :
    cacheValid (p.generate T M) :=
  rfl

/-- C8: cache validity is an invariant of the operation set: starting
from any generated header, after any sequence of the provided operations
(recalculation, id, hash, read accessors), whenever the cache is present
it equals a fresh consensus digest of the current fields. -/
theorem cache_validity_invariant (p : PartialBlockHeader)
    (T M : List (List Nat)) (ops : List HeaderOp) :
    cacheValid (ops.foldl applyOp (p.generate T M)) :=
  foldl_applyOp_preserves_cacheValid ops (p.generate T M)
    (generate_cacheValid p T M)

/-- C9: generation is total by construction (it returns a header, with no
failure path, for any input lists); on empty lists the counts are zero
and both roots equal the merkle collaborator's empty-tree root value. -/
theorem generate_total_empty_boundary (p : PartialBlockHeader) :
    (p.generate [] []).application.generated.transactions_count = 0 ∧
    (p.generate [] []).application.generated.output_messages_count = 0 ∧
    (p.generate [] []).application.generated.transactions_root =
      MerkleTree.new.root ∧
    (p.generate [] []).application.generated.output_messages_root =
      MerkleTree.new.root :=
  ⟨rfl, rfl, rfl, rfl⟩

/-- Helper: a concrete complete header for the identity-dependence
witness. -/
def exampleHeaderA : BlockHeader :=
  { application :=
      { da_height := 1
        generated :=
          { transactions_count := 5
            output_messages_count := 6
            transactions_root := [9]
            output_messages_root := [8] } }
    consensus :=
      { prev_root := [3], height := 4, time := 5
        generated := { application_hash := [7] } }
    metadata := none }

/-- Helper: a second concrete header agreeing with the first on every
consensus field but differing in the application fields. -/
def exampleHeaderB : BlockHeader :=
  { application :=
      { da_height := 2
        generated :=
          { transactions_count := 50
            output_messages_count := 60
            transactions_root := [90]
            output_messages_root := [80] } }
    consensus :=
      { prev_root := [3], height := 4, time := 5
        generated := { application_hash := [7] } }
    metadata := none }

/-- C10: the header identity is a function of the four consensus-digest
inputs only: headers agreeing on prev_root, height, time and
application_hash have equal hashes, and equal ids whenever their caches
are also equal, regardless of their application-header fields. -/
theorem identity_function_of_consensus_fields (a b : BlockHeader)
    (h1 : a.consensus.prev_root = b.consensus.prev_root)
    (h2 : a.consensus.height = b.consensus.height)
    (h3 : a.consensus.time = b.consensus.time)
    (h4 : a.consensus.generated.application_hash =
      b.consensus.generated.application_hash) :
    a.hash = b.hash ∧ (a.metadata = b.metadata → a.id = b.id) := by
  have hh : a.hash = b.hash := by
    simp [BlockHeader.hash, ConsensusHeader.hash, Hasher.default,
      Hasher.input, Hasher.digest, h1, h2, h3, h4]
  refine ⟨hh, fun hm => ?_⟩
  cases hma : a.metadata with
  | none => simp [BlockHeader.id, hma, ← hm, hh]
  | some m => simp [BlockHeader.id, hma, ← hm]

/-- Witness for C10 at two concrete headers that differ in their
application fields but share all consensus fields and an empty cache. -/
theorem identity_function_of_consensus_fields_witness :
    exampleHeaderA.application.da_height ≠
      exampleHeaderB.application.da_height ∧
    exampleHeaderA.hash = exampleHeaderB.hash ∧
    exampleHeaderA.id = exampleHeaderB.id :=
  ⟨by decide,
   (identity_function_of_consensus_fields exampleHeaderA exampleHeaderB
      rfl rfl rfl rfl).1,
   (identity_function_of_consensus_fields exampleHeaderA exampleHeaderB
      rfl rfl rfl rfl).2 rfl⟩
